import Mathlib

/-!
Verification of the Jobkonnect backend (jwtfunc.py, db_operations.py).

The Python source is shallowly embedded: the JWT library is modelled as a
pair of payload and signing key (a decode with the wrong key is an invalid
signature, mirroring PyJWT, which verifies the signature before validating
the exp claim), times are integer seconds, and the SQLAlchemy store is a
record of entity lists with an auto-increment counter per table.  Commit
failure of a transactional operation is modelled by a boolean `commitOk`
parameter: `false` means the commit raises SQLAlchemyError and the
operation takes its rollback path.
-/

namespace Jobkonnect

/-- Decoded identity: the id, username and role carried by a token
(jwtfunc.py, `current_user`). -/
structure Identity where
  id : Int
  username : String
  role : String
deriving DecidableEq, Repr

/-- JWT payload as built by `generate_token` (jwtfunc.py lines 33-38);
fields are optional so that foreign tokens lacking a claim can be
expressed (the decode in `token_required` reads them with `data[...]`). -/
structure Payload where
  id : Option Int
  username : Option String
  role : Option String
  exp : Option Int
deriving DecidableEq, Repr

/-- A signed token: its payload together with the key it was signed with.
Decoding with a different key is a signature failure. -/
structure Token where
  payload : Payload
  key : String
deriving DecidableEq, Repr

/-- Result of `jwt.decode`: success, ExpiredSignatureError, or
InvalidTokenError (bad signature or undecodable string). -/
inductive DecodeResult where
  | ok (p : Payload)
  | expired
  | invalid
deriving DecidableEq, Repr

/-- Model of `jwt.decode(token, key, algorithms=[HS256])` at time `now`:
signature checked first (PyJWT order); an `exp` claim at or before `now`
raises ExpiredSignatureError (PyJWT expires when exp <= now with zero
leeway). -/
def jwtDecode (t : Token) (key : String) (now : Int) : DecodeResult :=
  if t.key = key then
    match t.payload.exp with
    | some e => if e ≤ now then .expired else .ok t.payload
    | none => .ok t.payload
  else .invalid

/-- Model of `generate_token(user_id, username, role)` (jwtfunc.py lines
14-43) with the signing key and issue time explicit: payload id, username,
role and exp = now + one hour; returns the token and the expiration (the
source returns `expiration.isoformat()`, modelled as the instant itself). -/
def generate_token (user_id : Int) (username role : String) (key : String) (now : Int) :
    Token × Int :=
  let expiration := now + 3600
  ({ payload := { id := some user_id, username := some username,
                  role := some role, exp := some expiration },
     key := key }, expiration)

/-- One whitespace-separated part of the Authorization header: either an
ordinary word or the serialization of a signed token (an ordinary word in
token position fails `jwt.decode` with InvalidTokenError). -/
inductive HeaderPart where
  | word (s : String)
  | tok (t : Token)
deriving DecidableEq, Repr

/-- The raw Authorization header string: the empty string (falsy in
Python, so treated as missing by the gate) or a non-empty string given by
its `split()` parts (a whitespace-only string splits to `[]`). -/
inductive RawHeader where
  | emptyStr
  | parts (ps : List HeaderPart)
deriving DecidableEq, Repr

/-- Python's `s.lower()`, evaluated character by character (kept
kernel-computable; agrees with `str.lower` on ASCII scheme names). -/
def lowerStr (s : String) : String := String.mk (s.data.map Char.toLower)

/-- Whether `parts[0].lower() == 'bearer'` holds of a header part: a
serialized token is compact JWS (three dot-separated segments) and never
equals the word bearer. -/
def HeaderPart.isBearerScheme : HeaderPart → Bool
  | .word s => lowerStr s == "bearer"
  | .tok _ => false

/-- What `jwt.decode` sees in `parts[1]`: a token string decodes to its
token, any other word is undecodable. -/
def HeaderPart.asToken : HeaderPart → Option Token
  | .word _ => none
  | .tok t => some t

/-- Outcome of the decorated route (jwtfunc.py lines 61-84): one of the
four 401 responses, an uncaught KeyError (`data[k]` on a payload missing
key `k` — not handled by the two except clauses), or the wrapped
function's result. -/
inductive GateResult (α : Type) where
  | errMissingHeader
  | errInvalidFormat
  | errTokenExpired
  | errInvalidToken
  | keyError (k : String)
  | ok (a : α)
deriving DecidableEq, Repr

/-- Model of the function `decorated` produced by `token_required(f)`
(jwtfunc.py lines 60-84), with the signing key, current time and
Authorization header explicit.  Follows the source line by line: falsy
header → missing-header 401; split not exactly two parts or scheme not
bearer (case-insensitive) → invalid-format 401; `jwt.decode` failures →
expired / invalid 401; then `data[id]`, `data[username]`, `data[role]`
are read in that order (KeyError on the first absent one) and `f` is
called on the resulting identity. -/
def decorated {α : Type} (f : Identity → α) (key : String) (now : Int)
    (authHeader : Option RawHeader) : GateResult α :=
  match authHeader with
  | none => .errMissingHeader
  | some .emptyStr => .errMissingHeader
  | some (.parts ps) =>
    match ps with
    | [p0, p1] =>
      if p0.isBearerScheme then
        match p1.asToken with
        | none => .errInvalidToken
        | some t =>
          match jwtDecode t key now with
          | .expired => .errTokenExpired
          | .invalid => .errInvalidToken
          | .ok data =>
            match data.id with
            | none => .keyError "id"
            | some i =>
              match data.username with
              | none => .keyError "username"
              | some u =>
                match data.role with
                | none => .keyError "role"
                | some r => .ok (f { id := i, username := u, role := r })
      else .errInvalidFormat
    | _ => .errInvalidFormat

/-- The identity the gate resolves (the gate applied to the identity
function): errors pass through, success carries `current_user`. -/
def gateResolve (key : String) (now : Int) (authHeader : Option RawHeader) :
    GateResult Identity :=
  decorated (fun i => i) key now authHeader

/-- A well-formed `Bearer <token>` Authorization header holding `t`. -/
def bearerHeader (t : Token) : Option RawHeader :=
  some (.parts [.word "Bearer", .tok t])

end Jobkonnect

namespace Jobkonnect

/-- C1: a token produced by `generate_token`, presented to the gate as a
Bearer header before its one-hour expiry and under the same signing key,
resolves to exactly the same id, username and role. -/
theorem token_roundtrip (uid : Int) (uname urole key : String) (ti tv : Int)
    (h : tv < ti + 3600) :
    gateResolve key tv (bearerHeader (generate_token uid uname urole key ti).1)
      = .ok { id := uid, username := uname, role := urole } := by
  have hb : (HeaderPart.word "Bearer").isBearerScheme = true := by decide
  have he : ¬ (ti + 3600 ≤ tv) := by omega
  simp [gateResolve, decorated, bearerHeader, generate_token, jwtDecode,
    HeaderPart.asToken, hb, he]

/-- Witness for C1 at concrete inputs: id 7, username alice, role
employer, issued at time 0 and validated at time 10. -/
theorem token_roundtrip_witness :
    gateResolve "s3cret" 10 (bearerHeader (generate_token 7 "alice" "employer" "s3cret" 0).1)
      = .ok { id := 7, username := "alice", role := "employer" } :=
  token_roundtrip 7 "alice" "employer" "s3cret" 0 10 (by omega)

end Jobkonnect

namespace Jobkonnect

/-- Functorial action on gate outcomes: errors pass through, a success
value is transformed. -/
def mapGate {α β : Type} (f : α → β) : GateResult α → GateResult β
  | .errMissingHeader => .errMissingHeader
  | .errInvalidFormat => .errInvalidFormat
  | .errTokenExpired => .errTokenExpired
  | .errInvalidToken => .errInvalidToken
  | .keyError k => .keyError k
  | .ok a => .ok (f a)

/-- The gate first resolves an identity (or fails) and only then invokes
the wrapped function on it: `decorated f` is `gateResolve` with `f`
mapped over the success case. -/
theorem decorated_eq_map {α : Type} (f : Identity → α) (key : String) (now : Int)
    (h : Option RawHeader) :
    decorated f key now h = mapGate f (gateResolve key now h) := by
  rcases h with _ | rh
  · rfl
  rcases rh with _ | ps
  · rfl
  match ps with
  | [] => rfl
  | [p0] => rfl
  | p0 :: p1 :: p2 :: rest => rfl
  | [p0, p1] =>
    by_cases hb : p0.isBearerScheme
    · cases ht : p1.asToken with
      | none => simp [decorated, gateResolve, mapGate, hb, ht]
      | some t =>
        cases hd : jwtDecode t key now with
        | expired => simp [decorated, gateResolve, mapGate, hb, ht, hd]
        | invalid => simp [decorated, gateResolve, mapGate, hb, ht, hd]
        | ok data =>
          cases hi : data.id with
          | none => simp [decorated, gateResolve, mapGate, hb, ht, hd, hi]
          | some i =>
            cases hu : data.username with
            | none => simp [decorated, gateResolve, mapGate, hb, ht, hd, hi, hu]
            | some u =>
              cases hr : data.role with
              | none => simp [decorated, gateResolve, mapGate, hb, ht, hd, hi, hu, hr]
              | some r => simp [decorated, gateResolve, mapGate, hb, ht, hd, hi, hu, hr]
    · simp [decorated, gateResolve, mapGate, hb]

end Jobkonnect

namespace Jobkonnect

/-- C2: the Access-Control Gate short-circuits.  A missing (or falsy)
header, a split that is not exactly two parts, a first part that is not
the bearer scheme (case-insensitive), an undecodable second part, an
expired token and an invalid token each produce the corresponding 401
error for every wrapped function `f` — the error value does not involve
`f`, so the wrapped operation is never invoked; and whenever the gate
resolves an identity, `f` is invoked on exactly that identity and its
result is passed through unchanged. -/
theorem gate_short_circuit {α : Type} (key : String) (now : Int) :
    (∀ f : Identity → α, decorated f key now none = .errMissingHeader)
    ∧ (∀ f : Identity → α, decorated f key now (some .emptyStr) = .errMissingHeader)
    ∧ (∀ (ps : List HeaderPart) (f : Identity → α),
        (ps.length ≠ 2 ∨ ∃ p0 p1, ps = [p0, p1] ∧ p0.isBearerScheme = false) →
        decorated f key now (some (.parts ps)) = .errInvalidFormat)
    ∧ (∀ (p0 : HeaderPart) (s : String) (f : Identity → α), p0.isBearerScheme = true →
        decorated f key now (some (.parts [p0, .word s])) = .errInvalidToken)
    ∧ (∀ (p0 : HeaderPart) (t : Token) (f : Identity → α), p0.isBearerScheme = true →
        jwtDecode t key now = .expired →
        decorated f key now (some (.parts [p0, .tok t])) = .errTokenExpired)
    ∧ (∀ (p0 : HeaderPart) (t : Token) (f : Identity → α), p0.isBearerScheme = true →
        jwtDecode t key now = .invalid →
        decorated f key now (some (.parts [p0, .tok t])) = .errInvalidToken)
    ∧ (∀ (h : Option RawHeader) (i : Identity) (f : Identity → α),
        gateResolve key now h = .ok i → decorated f key now h = .ok (f i)) := by
  refine ⟨fun f => rfl, fun f => rfl, ?_, ?_, ?_, ?_, ?_⟩
  · intro ps f hm
    rcases hm with hlen | ⟨p0, p1, rfl, hb⟩
    · match ps with
      | [] => rfl
      | [p0] => rfl
      | p0 :: p1 :: p2 :: rest => rfl
      | [p0, p1] => exact absurd rfl hlen
    · simp [decorated, hb]
  · intro p0 s f hb
    simp [decorated, hb, HeaderPart.asToken]
  · intro p0 t f hb hd
    simp [decorated, hb, HeaderPart.asToken, hd]
  · intro p0 t f hb hd
    simp [decorated, hb, HeaderPart.asToken, hd]
  · intro h i f hok
    rw [decorated_eq_map f key now h, hok]
    rfl

/-- Witness for C2: with a concrete missing header, a one-part header, a
wrong scheme, an expired token and a valid token the gate behaves as the
theorem states (key k, time 50, wrapped function returning the id plus
one). -/
theorem gate_short_circuit_witness :
    decorated (fun i => i.id + 1) "k" 50 none = .errMissingHeader
    ∧ decorated (fun i => i.id + 1) "k" 50 (some (.parts [.word "Token"])) = .errInvalidFormat
    ∧ decorated (fun i => i.id + 1) "k" 50
        (some (.parts [.word "Basic", .word "abc"])) = .errInvalidFormat
    ∧ decorated (fun i => i.id + 1) "k" 50
        (some (.parts [.word "bearer",
          .tok { payload := { id := some 4, username := some "u", role := some "r",
                              exp := some 40 }, key := "k" }])) = .errTokenExpired
    ∧ decorated (fun i => i.id + 1) "k" 50
        (some (.parts [.word "Bearer",
          .tok { payload := { id := some 4, username := some "u", role := some "r",
                              exp := some 60 }, key := "k" }])) = .ok 5 := by
  refine ⟨(gate_short_circuit "k" 50).1 _, ?_, ?_, ?_, ?_⟩
  · exact (gate_short_circuit "k" 50).2.2.1 [.word "Token"] _ (Or.inl (by decide))
  · exact (gate_short_circuit "k" 50).2.2.1 [.word "Basic", .word "abc"] _
      (Or.inr ⟨_, _, rfl, by decide⟩)
  · exact (gate_short_circuit "k" 50).2.2.2.2.1 (.word "bearer") _ _ (by decide) (by decide)
  · exact (gate_short_circuit "k" 50).2.2.2.2.2.2 _
      { id := 4, username := "u", role := "r" } _ (by decide)

/-- C8: a token whose embedded expiration is in the past never yields a
successfully resolved identity, whatever its payload claims and whatever
key it was signed with; when it is signed with the gate's key, the gate
answers exactly with the expired-token rejection. -/
theorem expired_never_validates {α : Type} (i : Option Int) (u r : Option String)
    (e : Int) (key key' : String) (now : Int) (f : Identity → α) (h : e < now) :
    decorated f key now
        (bearerHeader { payload := { id := i, username := u, role := r, exp := some e },
                        key := key }) = .errTokenExpired
    ∧ ∀ a : α, decorated f key' now
        (bearerHeader { payload := { id := i, username := u, role := r, exp := some e },
                        key := key }) ≠ .ok a := by
  have hb : (HeaderPart.word "Bearer").isBearerScheme = true := by decide
  have he : e ≤ now := le_of_lt h
  constructor
  · simp [decorated, bearerHeader, jwtDecode, HeaderPart.asToken, hb, he]
  · intro a
    by_cases hk : key = key'
    · subst hk
      simp [decorated, bearerHeader, jwtDecode, HeaderPart.asToken, hb, he]
    · simp [decorated, bearerHeader, jwtDecode, HeaderPart.asToken, hb, hk]

/-- Witness for C8: a token with expiration 40 presented at time 50,
signed with the gate's key in the first conjunct and checked against a
different key in the second. -/
theorem expired_never_validates_witness :
    decorated (fun i => i.id) "k" 50
        (bearerHeader { payload := { id := some 4, username := some "u", role := some "r",
                                     exp := some 40 }, key := "k" }) = .errTokenExpired
    ∧ ∀ a : Int, decorated (fun i => i.id) "other" 50
        (bearerHeader { payload := { id := some 4, username := some "u", role := some "r",
                                     exp := some 40 }, key := "k" }) ≠ .ok a :=
  expired_never_validates (some 4) (some "u") (some "r") 40 "k" "other" 50
    (fun i => i.id) (by decide)

/-- C10: a correctly signed, unexpired token whose payload lacks id,
username or role escapes the handled cases: the gate raises an uncaught
KeyError — it returns none of the four 401 rejections and never invokes
the wrapped operation. -/
theorem gate_totality_gap {α : Type} (p : Payload) (key : String) (now : Int)
    (f : Identity → α)
    (hexp : ∀ e, p.exp = some e → now < e)
    (hmiss : p.id = none ∨ p.username = none ∨ p.role = none) :
    (∃ k, decorated f key now (bearerHeader { payload := p, key := key }) = .keyError k)
    ∧ (∀ a : α, decorated f key now (bearerHeader { payload := p, key := key }) ≠ .ok a)
    ∧ decorated f key now (bearerHeader { payload := p, key := key }) ≠ .errMissingHeader
    ∧ decorated f key now (bearerHeader { payload := p, key := key }) ≠ .errInvalidFormat
    ∧ decorated f key now (bearerHeader { payload := p, key := key }) ≠ .errTokenExpired
    ∧ decorated f key now (bearerHeader { payload := p, key := key }) ≠ .errInvalidToken := by
  have hb : (HeaderPart.word "Bearer").isBearerScheme = true := by decide
  have hdec : jwtDecode { payload := p, key := key } key now = .ok p := by
    unfold jwtDecode
    simp only [if_pos rfl]
    cases hp : p.exp with
    | none => rfl
    | some e =>
      have := hexp e hp
      simp [show ¬ (e ≤ now) by omega]
  have hk : ∃ k, decorated f key now (bearerHeader { payload := p, key := key })
      = .keyError k := by
    cases hi : p.id with
    | none =>
      exact ⟨"id", by simp [decorated, bearerHeader, HeaderPart.asToken, hb, hdec, hi]⟩
    | some i =>
      cases hu : p.username with
      | none =>
        exact ⟨"username",
          by simp [decorated, bearerHeader, HeaderPart.asToken, hb, hdec, hi, hu]⟩
      | some u =>
        cases hr : p.role with
        | none =>
          exact ⟨"role",
            by simp [decorated, bearerHeader, HeaderPart.asToken, hb, hdec, hi, hu, hr]⟩
        | some r =>
          rcases hmiss with hm | hm | hm <;> simp_all
  obtain ⟨k, hkeq⟩ := hk
  refine ⟨⟨k, hkeq⟩, ?_, ?_, ?_, ?_, ?_⟩ <;> simp [hkeq]

/-- Witness for C10: a token signed with the gate's key, no expiration
claim, username and role present but id absent, at time 0. -/
theorem gate_totality_gap_witness :
    ∃ k, decorated (fun i => i.id) "k" 0
        (bearerHeader { payload := { id := none, username := some "u", role := some "r",
                                     exp := none }, key := "k" }) = .keyError k :=
  (gate_totality_gap { id := none, username := some "u", role := some "r", exp := none }
    "k" 0 (fun i => i.id) (fun e he => by cases he) (Or.inl rfl)).1

end Jobkonnect

namespace Jobkonnect

/-- A serialized field value, as appearing in a to_dict projection. -/
inductive Val where
  | vInt (n : Int)
  | vStr (s : String)
  | vOptStr (s : Option String)
  | vOptInt (n : Option Int)
deriving DecidableEq, Repr

/-- Modelled from the spec: the SQLAlchemy model class `models.user.User`
is not under src/; its attributes are taken from spec section 3 — unique
id, username, email, password hash, role, phone_number, address and the
role-conditional fields. -/
structure User where
  id : Int
  username : String
  email : String
  password_hash : String
  role : String
  phone_number : String
  address : String
  first_name : Option String
  last_name : Option String
  company_name : Option String
  website : Option String
  contact_info : Option String
deriving DecidableEq, Repr

/-- Modelled from the spec: `User.to_dict` is not under src/; spec
sections 4.3 and 6 say the serialized form maps field names to values and
excludes the password hash. -/
def User.to_dict (u : User) : List (String × Val) :=
  [("id", .vInt u.id), ("username", .vStr u.username), ("email", .vStr u.email),
   ("role", .vStr u.role), ("phone_number", .vStr u.phone_number),
   ("address", .vStr u.address), ("first_name", .vOptStr u.first_name),
   ("last_name", .vOptStr u.last_name), ("company_name", .vOptStr u.company_name),
   ("website", .vOptStr u.website), ("contact_info", .vOptStr u.contact_info)]

/-- Modelled from the spec: the model class `models.job.Job` is not under
src/; attributes from spec section 3 and the constructor call in
`create_job`. -/
structure Job where
  id : Int
  title : String
  description : String
  requirements : String
  employer_id : Int
  salary : String
  location : String
  job_type : String
  application_deadline : String
  skills_required : String
  preferred_qualifications : String
deriving DecidableEq, Repr

/-- Modelled from the spec: the model class `models.application.Application`
is not under src/; attributes from spec section 3 and the constructor call
in `create_application`. -/
structure Application where
  id : Int
  job_id : Int
  employer_id : Int
  user_id : Int
  years_of_experience : Option Int
  resume : String
  cover_letter : String
  status : String
  name : String
  school_name : String
  portfolio : String
  skills : String
deriving DecidableEq, Repr

/-- Modelled from the spec: `Application.to_dict` is not under src/; spec
section 6 says each entity exposes a projection mapping every field name
to its value (no exclusions are specified for Application). -/
def Application.to_dict (a : Application) : List (String × Val) :=
  [("id", .vInt a.id), ("job_id", .vInt a.job_id), ("employer_id", .vInt a.employer_id),
   ("user_id", .vInt a.user_id), ("years_of_experience", .vOptInt a.years_of_experience),
   ("resume", .vStr a.resume), ("cover_letter", .vStr a.cover_letter),
   ("status", .vStr a.status), ("name", .vStr a.name),
   ("school_name", .vStr a.school_name), ("portfolio", .vStr a.portfolio),
   ("skills", .vStr a.skills)]

/-- The relational store reached through `SessionLocal()`: one table per
entity plus the auto-increment counters the store uses to assign primary
keys on insert. -/
structure DB where
  users : List User
  jobs : List Job
  applications : List Application
  next_job_id : Int
  next_app_id : Int
deriving DecidableEq, Repr

/-- The empty store. -/
def DB.empty : DB :=
  { users := [], jobs := [], applications := [], next_job_id := 1, next_app_id := 1 }

/-- Model of `login_user(email, password)` (db_operations.py lines
137-168).  `query(User).filter_by(email=email).one()` succeeds only on
exactly one match (NoResultFound and MultipleResultsFound are both caught
and turned into None); `user.check_password` is the abstract hasher
verify applied to the stored hash.  The boolean is true when the code
path executed `session.close()` — `login_user` has no finally clause and
closes on no path. -/
def login_user (db : DB) (verify : String → String → Bool) (email password : String) :
    Option User × Bool :=
  match db.users.filter (fun u => u.email == email) with
  | [user] => (if verify user.password_hash password then some user else none, false)
  | _ => (none, false)

/-- Model of `get_all_users()` (db_operations.py lines 192-196): returns
every user serialized; the session is never closed. -/
def get_all_users (db : DB) : List (List (String × Val)) × Bool :=
  (db.users.map User.to_dict, false)

/-- Field dictionary consumed by `create_job` (all keys read with
`data[...]`, so all are required). -/
structure JobData where
  title : String
  description : String
  requirements : String
  employer_id : Int
  salary : String
  location : String
  job_type : String
  application_deadline : String
  skills_required : String
  preferred_qualifications : String
deriving DecidableEq, Repr

/-- Model of `create_job(data)` (db_operations.py lines 219-249): builds
the Job (the store assigns the next primary key on commit), adds it and
commits, returning the new id; on commit failure rolls back and returns
None.  No path closes the session. -/
def create_job (db : DB) (commitOk : Bool) (data : JobData) : Option Int × DB × Bool :=
  let new_job : Job :=
    { id := db.next_job_id, title := data.title, description := data.description,
      requirements := data.requirements, employer_id := data.employer_id,
      salary := data.salary, location := data.location, job_type := data.job_type,
      application_deadline := data.application_deadline,
      skills_required := data.skills_required,
      preferred_qualifications := data.preferred_qualifications }
  if commitOk then
    (some new_job.id,
     { db with jobs := db.jobs ++ [new_job], next_job_id := db.next_job_id + 1 },
     false)
  else (none, db, false)

/-- Model of `delete_job(job_id)` (db_operations.py lines 331-361):
`query(Job).get(job_id)` fetches by primary key; if absent, returns False
with the store untouched.  Otherwise every Application with that job_id
is deleted, then the Job itself, and the single commit applies all of it;
a commit failure rolls the whole transaction back and returns False.  The
finally clause closes the session on every path. -/
def delete_job (db : DB) (commitOk : Bool) (job_id : Int) : Bool × DB × Bool :=
  match db.jobs.find? (fun j => j.id == job_id) with
  | none => (false, db, true)
  | some _ =>
    if commitOk then
      (true,
       { db with
         applications := db.applications.filter (fun a => !(a.job_id == job_id)),
         jobs := db.jobs.eraseP (fun j => j.id == job_id) },
       true)
    else (false, db, true)

/-- Field dictionary consumed by `create_application`; every key is read
with `data[...]` except years_of_experience, read with `data.get`, hence
optional. -/
structure AppData where
  job_id : Int
  employer_id : Int
  user_id : Int
  years_of_experience : Option Int
  resume : String
  cover_letter : String
  status : String
  name : String
  school_name : String
  portfolio : String
  skills : String
deriving DecidableEq, Repr

/-- Model of `create_application(data)` (db_operations.py lines 367-402):
first queries for an existing Application with the same user_id and
job_id (`.first()`); if one exists, raises ValueError — modelled as
`Except.error` with the source's message — inserting nothing.  Otherwise
the Application is built (primary key assigned by the store), added and
committed.  The session is closed on no path (no finally; the raise and
the return both leave it open). -/
def create_application (db : DB) (data : AppData) :
    Except String Application × DB × Bool :=
  match db.applications.find?
      (fun a => a.user_id == data.user_id && a.job_id == data.job_id) with
  | some _ => (.error "You have already applied for this job", db, false)
  | none =>
    let application : Application :=
      { id := db.next_app_id, job_id := data.job_id, employer_id := data.employer_id,
        user_id := data.user_id, years_of_experience := data.years_of_experience,
        resume := data.resume, cover_letter := data.cover_letter,
        status := data.status, name := data.name, school_name := data.school_name,
        portfolio := data.portfolio, skills := data.skills }
    (.ok application,
     { db with applications := db.applications ++ [application],
               next_app_id := db.next_app_id + 1 },
     false)

/-- Field dictionary consumed by `update_application_status`: `status` is
`some v` exactly when the Python dict contains the key status with value
v; `extra` carries any other keys, which the source never reads. -/
structure StatusData where
  status : Option String
  extra : List (String × String)
deriving DecidableEq, Repr

/-- Model of `update_application_status(application_id, data)`
(db_operations.py lines 452-478): fetches by primary key and returns None
if absent; mutates the status attribute only when the key status is in
data; commits (a no-op commit when nothing changed) and returns the
serialized record; on commit failure rolls back and returns None.  The
finally clause closes the session on every path. -/
def update_application_status (db : DB) (commitOk : Bool) (application_id : Int)
    (data : StatusData) : Option (List (String × Val)) × DB × Bool :=
  match db.applications.find? (fun a => a.id == application_id) with
  | none => (none, db, true)
  | some application =>
    let application' :=
      match data.status with
      | some s => { application with status := s }
      | none => application
    if commitOk then
      (some application'.to_dict,
       { db with applications :=
           db.applications.map (fun a => if a.id == application_id then application' else a) },
       true)
    else (none, db, true)

end Jobkonnect

namespace Jobkonnect

/-- A filter for a predicate after a filter for its negation is empty. -/
theorem filter_not_filter_self (l : List Application) (jid : Int) :
    (l.filter (fun a => !(a.job_id == jid))).filter (fun a => a.job_id == jid) = [] := by
  rw [List.filter_filter]
  apply List.filter_eq_nil_iff.mpr
  intro a _
  cases h : a.job_id == jid <;> simp [h]

/-- Erasing the row with a given primary key leaves no row with that key,
when primary keys are unique. -/
theorem jobs_eraseP_find (l : List Job) (jid : Int)
    (hnd : (l.map (fun j => j.id)).Nodup) :
    (l.eraseP (fun j => j.id == jid)).find? (fun j => j.id == jid) = none := by
  induction l with
  | nil => rfl
  | cons hd tl ih =>
    simp only [List.map_cons, List.nodup_cons] at hnd
    by_cases hp : (hd.id == jid) = true
    · rw [show (hd :: tl).eraseP (fun j => j.id == jid) = tl by
        simp [List.eraseP_cons, hp]]
      apply List.find?_eq_none.mpr
      intro x hx hxp
      have hid : hd.id = jid := by simpa using hp
      have hxid : x.id = jid := by simpa using hxp
      apply hnd.1
      rw [show hd.id = x.id by rw [hid, hxid]]
      exact List.mem_map_of_mem _ hx
    · have hp' : (hd.id == jid) = false := by simpa using hp
      rw [show (hd :: tl).eraseP (fun j => j.id == jid)
            = hd :: tl.eraseP (fun j => j.id == jid) by simp [List.eraseP_cons, hp']]
      rw [show (hd :: tl.eraseP (fun j => j.id == jid)).find? (fun j => j.id == jid)
            = (tl.eraseP (fun j => j.id == jid)).find? (fun j => j.id == jid) by
        simp [List.find?_cons, hp']]
      exact ih hnd.2

/-- A find? hit is the only row with its key when primary keys are
unique. -/
theorem find?_unique_by_id (l : List Application) (aid : Int) (app : Application)
    (hnd : (l.map (fun a => a.id)).Nodup)
    (hfind : l.find? (fun a => a.id == aid) = some app) :
    ∀ a ∈ l, (a.id == aid) = true → a = app := by
  induction l with
  | nil => simp at hfind
  | cons hd tl ih =>
    simp only [List.map_cons, List.nodup_cons] at hnd
    intro a ha hpa
    rcases List.mem_cons.mp ha with rfl | hatl
    · simp only [List.find?_cons, hpa] at hfind
      exact Option.some.inj hfind
    · by_cases hp : (hd.id == aid) = true
      · exfalso
        have h1 : a.id = aid := by simpa using hpa
        have h2 : hd.id = aid := by simpa using hp
        have h3 : a.id ∈ tl.map (fun a => a.id) := List.mem_map_of_mem _ hatl
        rw [h1, ← h2] at h3
        exact hnd.1 h3
      · have hp' : (hd.id == aid) = false := by simpa using hp
        simp only [List.find?_cons, hp'] at hfind
        exact ih hnd.2 hfind a hatl hpa

/-- Replacing every row that has a key by the row that already carries it
is the identity. -/
theorem map_if_eq_self (l : List Application) (aid : Int) (app : Application)
    (h : ∀ a ∈ l, (a.id == aid) = true → a = app) :
    l.map (fun a => if a.id == aid then app else a) = l := by
  induction l with
  | nil => rfl
  | cons hd tl ih =>
    simp only [List.map_cons, List.cons.injEq]
    constructor
    · by_cases hp : (hd.id == aid) = true
      · simp [hp, (h hd (by simp) hp).symm]
      · simp [hp]
    · exact ih (fun a ha hpa => h a (by simp [ha]) hpa)

end Jobkonnect

namespace Jobkonnect

/-- C3: `login_user` returns None — the same value — when no user record
has the email, when exactly one does but the password check fails, and
when more than one does; the caller cannot distinguish the three. -/
theorem login_indistinguishable (db : DB) (verify : String → String → Bool)
    (email password : String) :
    (db.users.filter (fun u => u.email == email) = [] →
      login_user db verify email password = (none, false))
    ∧ (∀ u, db.users.filter (fun u => u.email == email) = [u] →
        verify u.password_hash password = false →
        login_user db verify email password = (none, false))
    ∧ (∀ l, db.users.filter (fun u => u.email == email) = l → 2 ≤ l.length →
        login_user db verify email password = (none, false)) := by
  refine ⟨?_, ?_, ?_⟩
  · intro h
    simp [login_user, h]
  · intro u h hv
    simp [login_user, h, hv]
  · intro l h hlen
    rcases l with _ | ⟨a, _ | ⟨b, tl⟩⟩
    · simp at hlen
    · simp at hlen
    · simp [login_user, h]

end Jobkonnect

namespace Jobkonnect

/-- A job-seeker user record with a given id and email, used for concrete
witnesses. -/
def sampleUser (i : Int) (em : String) : User :=
  { id := i, username := "u", email := em, password_hash := "h", role := "job_seeker",
    phone_number := "p", address := "a", first_name := some "f", last_name := some "l",
    company_name := none, website := none, contact_info := none }

/-- Witness for C3: empty store, a store with one matching user whose
password check fails, and a store with two users sharing the email, all
three returning None. -/
theorem login_indistinguishable_witness :
    login_user DB.empty (fun _ _ => false) "a@x" "pw" = (none, false)
    ∧ login_user { DB.empty with users := [sampleUser 1 "a@x"] }
        (fun _ _ => false) "a@x" "pw" = (none, false)
    ∧ login_user { DB.empty with users := [sampleUser 1 "a@x", sampleUser 2 "a@x"] }
        (fun _ _ => false) "a@x" "pw" = (none, false) :=
  ⟨(login_indistinguishable DB.empty (fun _ _ => false) "a@x" "pw").1 rfl,
   (login_indistinguishable { DB.empty with users := [sampleUser 1 "a@x"] }
      (fun _ _ => false) "a@x" "pw").2.1 (sampleUser 1 "a@x") (by decide) rfl,
   (login_indistinguishable { DB.empty with users := [sampleUser 1 "a@x", sampleUser 2 "a@x"] }
      (fun _ _ => false) "a@x" "pw").2.2 _ rfl (by decide)⟩

end Jobkonnect

namespace Jobkonnect

/-- C4: `delete_job` on an absent id returns False and changes nothing;
on a present id with the commit succeeding it returns True, afterwards a
query for Applications by that job_id is empty, every other application
and job is preserved (and nothing new appears), the job itself is gone
(primary keys being unique), and users are untouched; if the commit
fails, the whole transaction rolls back — the store is exactly the
original, so the application deletions and the job deletion persist
together or not at all. -/
theorem delete_job_cascade (db : DB) (job_id : Int) :
    (db.jobs.find? (fun j => j.id == job_id) = none →
      ∀ commitOk, delete_job db commitOk job_id = (false, db, true))
    ∧ (∀ job, db.jobs.find? (fun j => j.id == job_id) = some job →
        delete_job db false job_id = (false, db, true))
    ∧ (∀ job, db.jobs.find? (fun j => j.id == job_id) = some job →
        (delete_job db true job_id).1 = true
        ∧ (delete_job db true job_id).2.1.applications.filter
            (fun a => a.job_id == job_id) = []
        ∧ (∀ a ∈ db.applications, (a.job_id == job_id) = false →
            a ∈ (delete_job db true job_id).2.1.applications)
        ∧ (∀ a ∈ (delete_job db true job_id).2.1.applications, a ∈ db.applications)
        ∧ ((db.jobs.map (fun j => j.id)).Nodup →
            (delete_job db true job_id).2.1.jobs.find? (fun j => j.id == job_id) = none)
        ∧ (∀ j ∈ db.jobs, (j.id == job_id) = false →
            j ∈ (delete_job db true job_id).2.1.jobs)
        ∧ (∀ j ∈ (delete_job db true job_id).2.1.jobs, j ∈ db.jobs)
        ∧ (delete_job db true job_id).2.1.users = db.users) := by
  refine ⟨?_, ?_, ?_⟩
  · intro h commitOk
    simp [delete_job, h]
  · intro job h
    simp [delete_job, h]
  · intro job h
    refine ⟨by simp [delete_job, h], ?_, ?_, ?_, ?_, ?_, ?_, by simp [delete_job, h]⟩
    · simp only [delete_job, h]
      exact filter_not_filter_self db.applications job_id
    · intro a ha hne
      simp only [delete_job, h]
      exact List.mem_filter.mpr ⟨ha, by simp [hne]⟩
    · intro a ha
      simp only [delete_job, h] at ha
      exact (List.mem_filter.mp ha).1
    · intro hnd
      simp only [delete_job, h]
      exact jobs_eraseP_find db.jobs job_id hnd
    · intro j hj hne
      simp only [delete_job, h]
      exact (List.mem_eraseP_of_neg (by simp [hne])).mpr hj
    · intro j hj
      simp only [delete_job, h] at hj
      exact List.mem_of_mem_eraseP hj

/-- An employer-owned job with a given id, used for concrete witnesses. -/
def sampleJob (i : Int) : Job :=
  { id := i, title := "t", description := "d", requirements := "q", employer_id := 2,
    salary := "s", location := "l", job_type := "jt", application_deadline := "ad",
    skills_required := "sr", preferred_qualifications := "pq" }

/-- An application by user uid for job jid, used for concrete witnesses. -/
def sampleApp (i uid jid : Int) : Application :=
  { id := i, job_id := jid, employer_id := 2, user_id := uid,
    years_of_experience := none, resume := "r", cover_letter := "c",
    status := "pending", name := "n", school_name := "sn", portfolio := "pf",
    skills := "sk" }

/-- A store holding job 1 with two applications for it and one
application for job 9, used for concrete witnesses. -/
def cascadeDB : DB :=
  { users := [], jobs := [sampleJob 1],
    applications := [sampleApp 1 3 1, sampleApp 2 4 1, sampleApp 3 3 9],
    next_job_id := 2, next_app_id := 4 }

/-- Witness for C4: on `cascadeDB`, deleting the missing job 5 changes
nothing, deleting job 1 with a failing commit changes nothing, and
deleting job 1 with the commit succeeding leaves no application for
job 1. -/
theorem delete_job_cascade_witness :
    delete_job cascadeDB true 5 = (false, cascadeDB, true)
    ∧ delete_job cascadeDB false 1 = (false, cascadeDB, true)
    ∧ (delete_job cascadeDB true 1).2.1.applications.filter
        (fun a => a.job_id == 1) = [] :=
  ⟨(delete_job_cascade cascadeDB 5).1 (by decide) true,
   (delete_job_cascade cascadeDB 1).2.1 (sampleJob 1) (by decide),
   ((delete_job_cascade cascadeDB 1).2.2 (sampleJob 1) (by decide)).2.1⟩

end Jobkonnect

namespace Jobkonnect

/-- C5: when the store already holds an Application for the submitted
(user_id, job_id) pair, `create_application` raises the typed
duplicate error, inserts nothing — the store is exactly the one before
the call — and therefore a store holding exactly one Application for the
pair still holds exactly one afterwards. -/
theorem create_application_duplicate (db : DB) (data : AppData)
    (hdup : ∃ a ∈ db.applications,
      a.user_id = data.user_id ∧ a.job_id = data.job_id) :
    (create_application db data).1 = .error "You have already applied for this job"
    ∧ (create_application db data).2.1 = db
    ∧ (db.applications.countP
        (fun a => a.user_id == data.user_id && a.job_id == data.job_id) = 1 →
       (create_application db data).2.1.applications.countP
        (fun a => a.user_id == data.user_id && a.job_id == data.job_id) = 1) := by
  obtain ⟨a, ha, h1, h2⟩ := hdup
  have hsome : (db.applications.find?
      (fun a => a.user_id == data.user_id && a.job_id == data.job_id)).isSome :=
    List.find?_isSome.mpr ⟨a, ha, by simp [h1, h2]⟩
  obtain ⟨a0, hfind⟩ := Option.isSome_iff_exists.mp hsome
  refine ⟨by simp [create_application, hfind], by simp [create_application, hfind], ?_⟩
  intro hcount
  simpa [create_application, hfind] using hcount

/-- The submitted field dictionary for an application by user 3 for job
1, used for concrete witnesses. -/
def sampleAppData : AppData :=
  { job_id := 1, employer_id := 2, user_id := 3, years_of_experience := none,
    resume := "r", cover_letter := "c", status := "pending", name := "n",
    school_name := "sn", portfolio := "pf", skills := "sk" }

/-- Witness for C5: a store already holding the one application of user 3
for job 1; submitting the same pair raises the duplicate error, leaves
the store unchanged, and the pair still has exactly one application. -/
theorem create_application_duplicate_witness :
    (create_application { DB.empty with applications := [sampleApp 1 3 1] }
        sampleAppData).1 = .error "You have already applied for this job"
    ∧ (create_application { DB.empty with applications := [sampleApp 1 3 1] }
        sampleAppData).2.1 = { DB.empty with applications := [sampleApp 1 3 1] }
    ∧ (create_application { DB.empty with applications := [sampleApp 1 3 1] }
        sampleAppData).2.1.applications.countP
        (fun a => a.user_id == sampleAppData.user_id
          && a.job_id == sampleAppData.job_id) = 1 :=
  ⟨(create_application_duplicate _ sampleAppData ⟨sampleApp 1 3 1, by decide⟩).1,
   (create_application_duplicate _ sampleAppData ⟨sampleApp 1 3 1, by decide⟩).2.1,
   (create_application_duplicate _ sampleAppData ⟨sampleApp 1 3 1, by decide⟩).2.2
     (by decide)⟩

end Jobkonnect

namespace Jobkonnect

/-- C6: `update_application_status` on an id with no Application in the
store returns None and leaves the store exactly as it was, for every
field dictionary and whether or not the commit would have succeeded. -/
theorem update_status_missing_noop (db : DB) (application_id : Int)
    (data : StatusData) (commitOk : Bool)
    (h : db.applications.find? (fun a => a.id == application_id) = none) :
    update_application_status db commitOk application_id data = (none, db, true) := by
  simp [update_application_status, h]

/-- Witness for C6: the empty store, id 1, a dictionary carrying a status
value and an unrelated key. -/
theorem update_status_missing_noop_witness :
    update_application_status DB.empty true 1
        { status := some "accepted", extra := [("note", "x")] }
      = (none, DB.empty, true) :=
  update_status_missing_noop DB.empty 1
    { status := some "accepted", extra := [("note", "x")] } true rfl

end Jobkonnect

namespace Jobkonnect

/-- C9: on an existing application id, a field dictionary without the
status key (whatever other keys it carries) still succeeds: the no-op
transaction commits, the call returns the serialized record of the
application exactly as it was before the call — every field, status
included — and the store is unchanged (primary keys being unique). -/
theorem update_status_frame (db : DB) (application_id : Int) (data : StatusData)
    (app : Application)
    (hnd : (db.applications.map (fun a => a.id)).Nodup)
    (hfind : db.applications.find? (fun a => a.id == application_id) = some app)
    (hnostatus : data.status = none) :
    update_application_status db true application_id data
      = (some app.to_dict, db, true) := by
  have huniq := find?_unique_by_id db.applications application_id app hnd hfind
  have hmap := map_if_eq_self db.applications application_id app huniq
  have hmap' : db.applications.map
      (fun a => if a.id = application_id then app else a) = db.applications := by
    simpa using hmap
  simp [update_application_status, hfind, hnostatus, hmap']

/-- Witness for C9: the cascade store, application id 2, a dictionary
holding only an unrelated key; the call returns the record of application
2 unchanged and the store as it was. -/
theorem update_status_frame_witness :
    update_application_status cascadeDB true 2
        { status := none, extra := [("note", "x")] }
      = (some (sampleApp 2 4 1).to_dict, cascadeDB, true) :=
  update_status_frame cascadeDB 2 { status := none, extra := [("note", "x")] }
    (sampleApp 2 4 1) (by decide) (by decide) rfl

end Jobkonnect

namespace Jobkonnect

/-- C7 counterexample: `login_user` is an entity operation, and on the
concrete store holding the user with email a@x a successful login returns
with its session still open (the source has no close call and no finally
clause on lines 137-168), refuting the claim that every entity operation
closes its store session on every exit path. -/
theorem login_user_leaves_session_open :
    (login_user { DB.empty with users := [sampleUser 1 "a@x"] }
      (fun _ _ => true) "a@x" "pw").2 = false := by
  decide

/-- C7 amended: only the operations written with a finally clause —
`delete_job` and `update_application_status` among those modelled here
(with `register_user`, `get_jobs_by_employer_id`, `get_applications` and
`get_application_by_id` in the source) — close their session on every
exit path; `login_user`, `get_all_users`, `create_job` and
`create_application` return or raise on every path with the session left
open. -/
theorem session_close_paths :
    (∀ (db : DB) (c : Bool) (jid : Int), (delete_job db c jid).2.2 = true)
    ∧ (∀ (db : DB) (c : Bool) (aid : Int) (data : StatusData),
        (update_application_status db c aid data).2.2 = true)
    ∧ (∀ (db : DB) (verify : String → String → Bool) (em pw : String),
        (login_user db verify em pw).2 = false)
    ∧ (∀ db : DB, (get_all_users db).2 = false)
    ∧ (∀ (db : DB) (c : Bool) (data : JobData), (create_job db c data).2.2 = false)
    ∧ (∀ (db : DB) (data : AppData), (create_application db data).2.2 = false) := by
  refine ⟨?_, ?_, ?_, fun db => rfl, ?_, ?_⟩
  · intro db c jid
    cases hfind : db.jobs.find? (fun j => j.id == jid) with
    | none => simp [delete_job, hfind]
    | some job => cases c <;> simp [delete_job, hfind]
  · intro db c aid data
    cases hfind : db.applications.find? (fun a => a.id == aid) with
    | none => simp [update_application_status, hfind]
    | some app => cases c <;> simp [update_application_status, hfind]
  · intro db verify em pw
    cases hl : db.users.filter (fun u => u.email == em) with
    | nil => simp [login_user, hl]
    | cons u tl =>
      cases tl with
      | nil => by_cases hv : verify u.password_hash pw <;> simp [login_user, hl, hv]
      | cons v tl2 => simp [login_user, hl]
  · intro db c data
    cases c <;> simp [create_job]
  · intro db data
    cases hfind : db.applications.find?
        (fun a => a.user_id == data.user_id && a.job_id == data.job_id) with
    | none => simp [create_application, hfind]
    | some a => simp [create_application, hfind]

end Jobkonnect
